import Mathlib

/-!
Shallow embedding of the email verification service (index.js) and proofs
about it.  The probe (verifyMailbox) is an event-driven state machine over a
raw socket; we model it as a pure transition function over an explicit
ProbeState, driven by a list of events (data chunks, timeout, error), with
the promise resolution on the close event modelled as reading the final
recorded result.  The pipeline (verifyEmail) and the batch endpoint handler
are modelled as pure functions over an environment providing the external
collaborators (the third-party address validator, DNS MX resolution, and the
network effect of one probe run).
-/

namespace EmailVerify

/-- Tri-state verification status of the pipeline. -/
inductive Status
  | valid
  | invalid
  | unknown
deriving DecidableEq, Repr

/-- VerificationOutcome: status plus human-readable reason. -/
structure Outcome where
  status : Status
  reason : String
deriving DecidableEq, Repr

/-- Result object built by verifyMailbox: `\x7b valid, reason \x7d`. -/
structure SmtpResult where
  valid : Bool
  reason : String
deriving DecidableEq, Repr

/-- An MX record as returned by dns.resolveMx. -/
structure MxRecord where
  exchange : String
  priority : Int
deriving DecidableEq, Repr

/-- A JavaScript value as it may arrive in a JSON request body field
(the skip_smtp field is untyped at the boundary). -/
inductive JsValue
  | bool (b : Bool)
  | str (s : String)
  | num (n : Int)
  | null
  | undef
deriving DecidableEq, Repr

/-- JavaScript strict equality test `v === true`. -/
def jsIsTrue : JsValue → Bool
  | .bool true => true
  | _ => false

/-- JavaScript String.prototype.split with a one-character separator,
on the character list of the string.  `[].concat` of JS: "".split(sep)
is [""], and separators at the ends produce empty segments. -/
def jsSplitChar (sep : Char) : List Char → List (List Char)
  | [] => [[]]
  | c :: rest =>
    if c = sep then [] :: jsSplitChar sep rest
    else
      match jsSplitChar sep rest with
      | [] => [[c]]
      | h :: t => (c :: h) :: t

/-- JavaScript String.prototype.split with the two-character separator CRLF. -/
def splitCRLF : List Char → List (List Char)
  | [] => [[]]
  | '\r' :: '\n' :: rest => [] :: splitCRLF rest
  | c :: rest =>
    match splitCRLF rest with
    | [] => [[c]]
    | h :: t => (c :: h) :: t

/-- buffer.endsWith of the two characters CR LF. -/
def endsWithCRLF (l : List Char) : Bool :=
  match l.reverse with
  | '\n' :: '\r' :: _ => true
  | _ => false

/-- Longest leading run of decimal digits, as a number; none when the run is
empty (the NaN case of parseInt). -/
def leadingNat (cs : List Char) : Option Nat :=
  match cs.takeWhile (fun c => c.isDigit) with
  | [] => none
  | ds => some (ds.foldl (fun a c => a * 10 + (c.toNat - '0'.toNat)) 0)

/-- JavaScript parseInt(s, 10): skip whitespace, optional sign, longest digit
prefix; none models NaN. -/
def jsParseInt (cs : List Char) : Option Int :=
  let cs := cs.dropWhile (fun c => c = ' ' || c = '\t' || c = '\n' || c = '\r')
  match cs with
  | '-' :: rest => (leadingNat rest).map (fun n => -(n : Int))
  | '+' :: rest => (leadingNat rest).map (fun n => (n : Int))
  | rest => (leadingNat rest).map (fun n => (n : Int))

/-- parseInt(lastLine.substring(0, 3), 10) of the probe. -/
def smtpCode (line : List Char) : Option Int :=
  jsParseInt (line.take 3)

/-- JS template interpolation of the code value: a number prints in decimal,
NaN prints as NaN. -/
def jsCodeStr : Option Int → String
  | some n => toString n
  | none => "NaN"

/-- ProbeSession: the mutable closure state of one verifyMailbox call
(current step, unparsed buffer, tentative result), extended with an
observation of the side effects on the socket (ordered list of writes,
whether end or destroy was called). -/
structure ProbeState where
  step : Nat
  buffer : List Char
  result : SmtpResult
  writes : List String
  ended : Bool
  destroyed : Bool
deriving DecidableEq, Repr

/-- Initial closure state of verifyMailbox. -/
def initProbeState : ProbeState :=
  { step := 0
    buffer := []
    result := { valid := false, reason := "Unknown error during SMTP check" }
    writes := []
    ended := false
    destroyed := false }

/-- The switch (step) body of the data handler, run once a complete CRLF
terminated group has been classified.  The state passed in already holds the
appended buffer; branches that reset the buffer set it to []. -/
def stepTransition (fromEmail toEmail : String) (st : ProbeState)
    (code : Option Int) (lastLine : List Char) : ProbeState :=
  match st.step with
  | 0 =>
    if code = some 220 then
      { st with writes := st.writes ++ ["HELO example.com\r\n"], step := 1, buffer := [] }
    else
      { st with result := { valid := false, reason := "Unexpected SMTP response: " ++ String.mk lastLine }
                writes := st.writes ++ ["QUIT\r\n"], step := 99, buffer := [] }
  | 1 =>
    if code = some 250 then
      { st with writes := st.writes ++ ["MAIL FROM:<" ++ fromEmail ++ ">\r\n"], step := 2, buffer := [] }
    else
      { st with result := { valid := false, reason := "HELO not accepted: " ++ String.mk lastLine }
                writes := st.writes ++ ["QUIT\r\n"], step := 99, buffer := [] }
  | 2 =>
    if code = some 250 then
      { st with writes := st.writes ++ ["RCPT TO:<" ++ toEmail ++ ">\r\n"], step := 3, buffer := [] }
    else
      { st with result := { valid := false, reason := "MAIL FROM not accepted: " ++ String.mk lastLine }
                writes := st.writes ++ ["QUIT\r\n"], step := 99, buffer := [] }
  | 3 =>
    if code = some 250 then
      { st with result := { valid := true, reason := "Mailbox exists (SMTP check passed)" }
                writes := st.writes ++ ["QUIT\r\n"], step := 4, buffer := [] }
    else
      { st with result := { valid := false, reason := "Mailbox not found (SMTP " ++ jsCodeStr code ++ ")" }
                writes := st.writes ++ ["QUIT\r\n"], step := 4, buffer := [] }
  | 4 =>
    if code = some 221 then { st with ended := true } else st
  | _ => st

/-- The socket data event handler: append the chunk to the buffer; when the
buffer ends in CRLF, classify using the numeric code of the last nonempty
line.  Returns none on the one path where the JS code would throw (an all
empty line group, where responseLines[responseLines.length - 1] is
undefined). -/
def onData (fromEmail toEmail : String) (st : ProbeState) (chunk : String) : Option ProbeState :=
  if endsWithCRLF (st.buffer ++ chunk.toList) then
    match ((splitCRLF (st.buffer ++ chunk.toList)).filter (fun line => !line.isEmpty)).getLast? with
    | none => none
    | some lastLine =>
      some (stepTransition fromEmail toEmail { st with buffer := st.buffer ++ chunk.toList }
              (smtpCode lastLine) lastLine)
  else
    some { st with buffer := st.buffer ++ chunk.toList }

/-- Events delivered to one probe session by the transport.  The close event
is not listed: a run is a list of events followed by the close of the
connection, at which point the promise resolves with the recorded result. -/
inductive ProbeEvent
  | data (chunk : String)
  | timeout
  | error (msg : String)
deriving DecidableEq, Repr

/-- Dispatch of one transport event to its handler. -/
def processEvent (fromEmail toEmail : String) (st : ProbeState) : ProbeEvent → Option ProbeState
  | .data chunk => onData fromEmail toEmail st chunk
  | .timeout =>
    some { st with result := { valid := false, reason := "SMTP connection timed out" }
                   destroyed := true }
  | .error msg =>
    some { st with result := { valid := false, reason := "SMTP connection error: " ++ msg }
                   destroyed := true }

/-- The closure state after a whole sequence of transport events. -/
def runProbeState (fromEmail toEmail : String) (events : List ProbeEvent) : Option ProbeState :=
  events.foldlM (processEvent fromEmail toEmail) initProbeState

/-- verifyMailbox: the value the promise resolves with when the connection
closes after the given events. -/
def runProbe (fromEmail toEmail : String) (events : List ProbeEvent) : Option SmtpResult :=
  (runProbeState fromEmail toEmail events).map (fun st => st.result)

/-- Fold of onData alone from an arbitrary session state, used to reason
about replies received after a given point of the session. -/
def processData (fromEmail toEmail : String) (st : ProbeState) (chunks : List String) : Option ProbeState :=
  chunks.foldlM (onData fromEmail toEmail) st

/-- The hardcoded knownHardDomains list. -/
def knownHardDomains : List String :=
  ["gmail.com", "yahoo.com", "outlook.com", "hotmail.com", "live.com"]

/-- email.split(at)[1] of the pipeline: none models the undefined value a
string without the separator yields. -/
def emailDomain (email : String) : Option String :=
  ((jsSplitChar '@' email.toList).get? 1).map (fun cs => String.mk cs)

/-- knownHardDomains.includes(domain); includes(undefined) is false. -/
def domainIsHard : Option String → Bool
  | some d => knownHardDomains.contains d
  | none => false

/-- JS template interpolation of a possibly undefined string. -/
def jsShow : Option String → String
  | some s => s
  | none => "undefined"

/-- Skip-path reason for a known hard domain. -/
def hardSkipReason (d : Option String) : String :=
  "The domain (" ++ jsShow d ++ ") can receive emails (MX records are valid), but individual mailbox verification was skipped."

/-- Skip-path reason for an ordinary domain. -/
def softSkipReason : String :=
  "SMTP verification skipped. Domain is configured to receive email, but mailbox validation not performed."

/-- Reason used when the probe fails on a known hard domain. -/
def hardProbeFailReason (d : Option String) : String :=
  "The domain (" ++ jsShow d ++ ") is set up to receive emails (MX records are valid), but the server does not confirm individual mailboxes."

/-- mxRecords.sort on the priority comparator (stable, ascending). -/
def insertMx (r : MxRecord) : List MxRecord → List MxRecord
  | [] => [r]
  | x :: xs => if x.priority ≤ r.priority then x :: insertMx r xs else r :: x :: xs

/-- Stable ascending sort by priority. -/
def sortMx : List MxRecord → List MxRecord
  | [] => []
  | r :: rs => insertMx r (sortMx rs)

/-- mxRecords[0].exchange after the sort. -/
def firstExchange : List MxRecord → String
  | r :: _ => r.exchange
  | [] => ""

/-- External collaborators of the pipeline: the third-party address format
validator, dns.resolveMx (either a record list or a thrown error; its
argument is the possibly undefined split result), and the net effect of one
verifyMailbox run against a host (mxHost, fromEmail, toEmail). -/
structure Env where
  validateEmail : String → Bool
  resolveMx : Option String → Except Unit (List MxRecord)
  probe : String → String → String → SmtpResult

/-- verifyEmail, instrumented: the second component records whether control
reached the SMTP probe stage (the verifyMailbox call). -/
def verifyEmailCore (env : Env) (email : String) (skip : JsValue) : Outcome × Bool :=
  if email = "" then
    ({ status := .invalid, reason := "No email provided." }, false)
  else if env.validateEmail email = false then
    ({ status := .invalid, reason := "Invalid email syntax." }, false)
  else
    match env.resolveMx (emailDomain email) with
    | .error _ => ({ status := .invalid, reason := "Domain not found or no valid DNS records." }, false)
    | .ok mxRecords =>
      if mxRecords.length = 0 then
        ({ status := .invalid, reason := "No MX records found for domain." }, false)
      else if jsIsTrue skip then
        if domainIsHard (emailDomain email) then
          ({ status := .unknown, reason := hardSkipReason (emailDomain email) }, false)
        else
          ({ status := .unknown, reason := softSkipReason }, false)
      else
        let smtpResult := env.probe (firstExchange (sortMx mxRecords)) "test@example.com" email
        if smtpResult.valid then
          ({ status := .valid, reason := smtpResult.reason }, true)
        else if domainIsHard (emailDomain email) then
          ({ status := .unknown, reason := hardProbeFailReason (emailDomain email) }, true)
        else
          ({ status := .invalid, reason := smtpResult.reason }, true)

/-- The verification pipeline: one VerificationOutcome per address. -/
def verifyEmail (env : Env) (email : String) (skip : JsValue) : Outcome :=
  (verifyEmailCore env email skip).1

/-- One entry of the batch results list: the address spread with its outcome. -/
structure BatchEntry where
  email : String
  status : Status
  reason : String
deriving DecidableEq, Repr

/-- The summary object of the batch response. -/
structure BatchSummary where
  total : Nat
  valid : Nat
  invalid : Nat
  unknown : Nat
deriving DecidableEq, Repr

/-- The success body of the batch endpoint. -/
structure BatchResponse where
  summary : BatchSummary
  results : List BatchEntry
deriving DecidableEq, Repr

/-- The emails field of a batch request body: either not an array (covering
undefined, null and every non-array value) or an array of strings. -/
inductive BatchInput
  | notList
  | list (emails : List String)

/-- The results entry produced for one address. -/
def entryFor (env : Env) (skip : JsValue) (email : String) : BatchEntry :=
  { email := email
    status := (verifyEmail env email skip).status
    reason := (verifyEmail env email skip).reason }

/-- The for-of loop of the batch handler: accumulates the results array and
the three tally counters. -/
def batchLoop (env : Env) (skip : JsValue) :
    List String → List BatchEntry → Nat → Nat → Nat → List BatchEntry × Nat × Nat × Nat
  | [], results, v, i, u => (results, v, i, u)
  | e :: rest, results, v, i, u =>
    match (verifyEmail env e skip).status with
    | .valid => batchLoop env skip rest (results ++ [entryFor env skip e]) (v + 1) i u
    | .invalid => batchLoop env skip rest (results ++ [entryFor env skip e]) v (i + 1) u
    | .unknown => batchLoop env skip rest (results ++ [entryFor env skip e]) v i (u + 1)

/-- The batch endpoint handler: guard clauses for a non-array body and for
the 1000 entry ceiling, then the sequential loop, then the summary. -/
def verifyBatch (env : Env) (input : BatchInput) (skip : JsValue) : Except String BatchResponse :=
  match input with
  | .notList => .error "Please provide an array of emails."
  | .list emails =>
    if emails.length > 1000 then
      .error "Batch size limit exceeded (max 1000)."
    else
      .ok { summary := { total := emails.length
                         valid := (batchLoop env skip emails [] 0 0 0).2.1
                         invalid := (batchLoop env skip emails [] 0 0 0).2.2.1
                         unknown := (batchLoop env skip emails [] 0 0 0).2.2.2 }
            results := (batchLoop env skip emails [] 0 0 0).1 }

/-- Modelled from the spec: the decomposition the claim describes, the domain
being the entire substring after the first separator character, with any
later separator characters included.  Stated only for comparison with the
split the code performs. -/
def afterFirstAt : List Char → Option (List Char)
  | [] => none
  | c :: rest => if c = '@' then some rest else afterFirstAt rest

/-- Modelled from the spec: string form of afterFirstAt. -/
def afterFirstAtSpec (email : String) : Option String :=
  (afterFirstAt email.toList).map (fun cs => String.mk cs)

/-- A concrete environment: the validator accepts two fixed addresses, DNS
resolves their two domains (one of them a known hard domain), and the remote
server rejects the RCPT command. -/
def envA : Env :=
  { validateEmail := fun e => e == "user@example.org" || e == "user@gmail.com"
    resolveMx := fun d =>
      match d with
      | some "example.org" => .ok [{ exchange := "mx1.example.org", priority := 10 }]
      | some "gmail.com" => .ok [{ exchange := "gmail-smtp-in.l.google.com", priority := 5 }]
      | _ => .error ()
    probe := fun _ _ _ => { valid := false, reason := "Mailbox not found (SMTP 550)" } }

/-- The reply trace of a fully successful handshake: service ready greeting,
then command accepted at the three following steps. -/
def okEvents : List ProbeEvent :=
  [.data "220 mx.example.org ESMTP\r\n", .data "250 Hello\r\n",
   .data "250 Ok\r\n", .data "250 Ok\r\n"]

/-- A concrete environment whose probe effect is the probe state machine run
on the successful reply trace. -/
def envOk : Env :=
  { validateEmail := fun e => e == "user@example.org"
    resolveMx := fun d =>
      match d with
      | some "example.org" => .ok [{ exchange := "mx1.example.org", priority := 10 }]
      | _ => .error ()
    probe := fun _ fe te => (runProbe fe te okEvents).getD { valid := false, reason := "no reply" } }

/-- The batch response envA produces on a three-address list with the skip
flag set. -/
def respA : BatchResponse :=
  { summary := { total := 3, valid := 0, invalid := 1, unknown := 2 }
    results :=
      [{ email := "user@example.org", status := .unknown, reason := softSkipReason },
       { email := "", status := .invalid, reason := "No email provided." },
       { email := "user@gmail.com", status := .unknown, reason := hardSkipReason (some "gmail.com") }] }

/-- A session state just after an abort at the greeting acknowledgement step. -/
def sAbort : ProbeState :=
  { step := 99
    buffer := []
    result := { valid := false, reason := "HELO not accepted: 500 no" }
    writes := ["QUIT\r\n"]
    ended := false
    destroyed := false }

/-- The session state sAbort reaches after one further reply arrives. -/
def sAfter : ProbeState :=
  { sAbort with buffer := "250 Ok\r\n".toList }

/-- The value of the skip branch of the pipeline, as one definition for use
in proofs. -/
def skipOutcome (email : String) : Outcome × Bool :=
  if domainIsHard (emailDomain email) then
    ({ status := .unknown, reason := hardSkipReason (emailDomain email) }, false)
  else
    ({ status := .unknown, reason := softSkipReason }, false)

/-- The value of the probe branch of the pipeline, as one definition for use
in proofs. -/
def probeOutcome (env : Env) (email : String) (rs : List MxRecord) : Outcome × Bool :=
  if (env.probe (firstExchange (sortMx rs)) "test@example.com" email).valid then
    ({ status := .valid, reason := (env.probe (firstExchange (sortMx rs)) "test@example.com" email).reason }, true)
  else if domainIsHard (emailDomain email) then
    ({ status := .unknown, reason := hardProbeFailReason (emailDomain email) }, true)
  else
    ({ status := .invalid, reason := (env.probe (firstExchange (sortMx rs)) "test@example.com" email).reason }, true)

/-- A list without the separator splits to the single segment that is the
whole list. -/
theorem jsSplitChar_no_sep (sep : Char) : ∀ (l : List Char), sep ∉ l → jsSplitChar sep l = [l]
  | [], _ => rfl
  | c :: rest, h => by
    have hc : ¬ c = sep := fun hc => h (hc ▸ List.mem_cons_self c rest)
    have ih := jsSplitChar_no_sep sep rest (fun hm => h (List.mem_cons_of_mem _ hm))
    simp [jsSplitChar, hc, ih]

/-- Splitting a list around its first separator occurrence yields the part
before it followed by the split of the part after it. -/
theorem jsSplitChar_append (sep : Char) :
    ∀ (l r : List Char), sep ∉ l → jsSplitChar sep (l ++ sep :: r) = l :: jsSplitChar sep r
  | [], r, _ => by simp [jsSplitChar]
  | c :: l, r, h => by
    have hc : ¬ c = sep := fun hc => h (hc ▸ List.mem_cons_self c l)
    have ih := jsSplitChar_append sep l r (fun hm => h (List.mem_cons_of_mem _ hm))
    simp [jsSplitChar, hc, ih]

/-- C7, counterexample: on an input with two separator characters the code
takes the second split segment, which differs from the entire substring
after the first separator that the claim describes. -/
theorem domain_split_counterexample :
    emailDomain "a@b@c" = some "b"
    ∧ afterFirstAtSpec "a@b@c" = some "b@c"
    ∧ emailDomain "a@b@c" ≠ afterFirstAtSpec "a@b@c" :=
  ⟨rfl, rfl, by decide⟩

/-- C7 (amended): the pipeline takes the second segment of splitting the
address on every separator character; for an address containing exactly one
separator this is precisely the substring after it, and addresses that reach
MX resolution have passed the format check. -/
theorem domain_second_segment (l r : List Char) (hl : '@' ∉ l) (hr : '@' ∉ r) :
    emailDomain (String.mk (l ++ '@' :: r)) = some (String.mk r) := by
  unfold emailDomain
  rw [show (String.mk (l ++ '@' :: r)).toList = l ++ '@' :: r from rfl]
  rw [jsSplitChar_append '@' l r hl, jsSplitChar_no_sep '@' r hr]
  rfl

/-- C7 witness: the amended statement evaluated on a one-separator address. -/
theorem domain_second_segment_witness :
    emailDomain (String.mk (['u'] ++ '@' :: ['d', '.', 'c', 'o'])) = some (String.mk ['d', '.', 'c', 'o']) :=
  domain_second_segment ['u'] ['d', '.', 'c', 'o'] (by decide) (by decide)

/-- C2, counterexample: a reply code 250 at every step in sequence does not
produce a valid outcome; the greeting step expects the service ready code
220, so the very first 250 aborts the session with an invalid result. -/
theorem all_250_counterexample :
    runProbe "test@example.com" "user@example.org"
        [.data "250 A\r\n", .data "250 B\r\n", .data "250 C\r\n", .data "250 D\r\n"]
      = some { valid := false, reason := "Unexpected SMTP response: 250 A" } :=
  rfl

/-- C2 (amended): a reply of 220 at the greeting step followed by 250 at
each subsequent step yields the valid probe outcome, and the pipeline then
returns status valid carrying that reason. -/
theorem greeting_then_250_valid (fe te : String) :
    runProbe fe te okEvents = some { valid := true, reason := "Mailbox exists (SMTP check passed)" }
    ∧ verifyEmail envOk "user@example.org" (.bool false)
      = { status := .valid, reason := "Mailbox exists (SMTP check passed)" } :=
  ⟨rfl, rfl⟩

/-- C6: a non-array body, or a list longer than 1000 entries, is rejected
with the request-level error, uniformly in the environment, so no address is
processed, no probe runs, and no summary or results are produced. -/
theorem batch_reject (env : Env) (skip : JsValue) (emails : List String)
    (h : emails.length > 1000) :
    verifyBatch env (.list emails) skip = .error "Batch size limit exceeded (max 1000)."
    ∧ verifyBatch env .notList skip = .error "Please provide an array of emails." := by
  constructor
  · simp [verifyBatch, h]
  · rfl

/-- C6 witness: a batch of 1001 addresses is rejected. -/
theorem batch_reject_witness :
    verifyBatch envA (.list (List.replicate 1001 "user@example.org")) (.bool true)
      = .error "Batch size limit exceeded (max 1000)."
    ∧ verifyBatch envA .notList (.bool true) = .error "Please provide an array of emails." :=
  batch_reject envA (.bool true) (List.replicate 1001 "user@example.org")
    (by rw [List.length_replicate]; omega)

/-- C8, counterexample: after the recipient step accepted (QUIT already
written, step 4), an unexpected reply code neither transitions to the
aborted state nor records an invalid outcome nor writes a termination
command; the session keeps the valid result. -/
theorem unexpected_code_after_quit_ignored :
    runProbeState "test@example.com" "user@example.org" (okEvents ++ [.data "500 oops\r\n"])
      = some { step := 4
               buffer := "500 oops\r\n".toList
               result := { valid := true, reason := "Mailbox exists (SMTP check passed)" }
               writes := ["HELO example.com\r\n", "MAIL FROM:<test@example.com>\r\n",
                          "RCPT TO:<user@example.org>\r\n", "QUIT\r\n"]
               ended := false
               destroyed := false } :=
  rfl

/-- C8 (amended): an unexpected reply code at the greeting, greeting
acknowledgement or sender acknowledgement step moves to the aborted sink
(step 99) with an invalid recorded outcome and writes the QUIT command; at
the recipient step an unexpected code records the invalid outcome and writes
QUIT but moves to the QUIT acknowledgement step instead of the sink; there,
a further unexpected code is ignored entirely.  The session resolves with
the recorded result when the connection closes. -/
theorem unexpected_code_aborts (fe te : String) (st : ProbeState) (code : Option Int)
    (lastLine : List Char) :
    (((st.step = 0 ∧ code ≠ some 220) ∨ ((st.step = 1 ∨ st.step = 2) ∧ code ≠ some 250)) →
      ((stepTransition fe te st code lastLine).step = 99
        ∧ (stepTransition fe te st code lastLine).result.valid = false
        ∧ (stepTransition fe te st code lastLine).writes = st.writes ++ ["QUIT\r\n"]))
    ∧ ((st.step = 3 ∧ code ≠ some 250) →
      ((stepTransition fe te st code lastLine).step = 4
        ∧ (stepTransition fe te st code lastLine).result.valid = false
        ∧ (stepTransition fe te st code lastLine).writes = st.writes ++ ["QUIT\r\n"]))
    ∧ ((st.step = 4 ∧ code ≠ some 221) →
      stepTransition fe te st code lastLine = st) := by
  refine ⟨?_, ?_, ?_⟩
  · rintro (⟨h0, hc⟩ | ⟨h1 | h2, hc⟩)
    · simp [stepTransition, h0, hc]
    · simp [stepTransition, h1, hc]
    · simp [stepTransition, h2, hc]
  · rintro ⟨h3, hc⟩
    simp [stepTransition, h3, hc]
  · rintro ⟨h4, hc⟩
    simp [stepTransition, h4, hc]

/-- C8 witness: the aborting transition evaluated at the greeting step on an
unexpected code. -/
theorem unexpected_code_aborts_witness :
    (stepTransition "test@example.com" "user@example.org" initProbeState (some 250) "250 A".toList).step = 99
    ∧ (stepTransition "test@example.com" "user@example.org" initProbeState (some 250) "250 A".toList).result.valid = false
    ∧ (stepTransition "test@example.com" "user@example.org" initProbeState (some 250) "250 A".toList).writes
      = initProbeState.writes ++ ["QUIT\r\n"] :=
  (unexpected_code_aborts "test@example.com" "user@example.org" initProbeState (some 250) "250 A".toList).1
    (Or.inl ⟨rfl, by decide⟩)

/-- Reduction of the pipeline once the empty check, the format check and MX
resolution have all passed: only the skip test and probe interpretation
remain. -/
theorem verifyEmailCore_probe_stage (env : Env) (email : String) (skip : JsValue)
    (rs : List MxRecord) (h0 : email ≠ "") (h1 : env.validateEmail email = true)
    (h2 : env.resolveMx (emailDomain email) = .ok rs) (h3 : rs ≠ []) :
    verifyEmailCore env email skip
      = if jsIsTrue skip then skipOutcome email else probeOutcome env email rs := by
  have hlen : ¬ (rs.length = 0) := by
    intro hh
    exact h3 (List.length_eq_zero.mp hh)
  unfold verifyEmailCore
  rw [if_neg h0, h1, h2]
  simp only [Bool.true_eq_false, if_false, if_neg hlen]
  rfl

/-- The skip branch never reaches the probe. -/
theorem skipOutcome_snd (email : String) : (skipOutcome email).2 = false := by
  unfold skipOutcome
  split <;> rfl

/-- The probe branch always performs the probe. -/
theorem probeOutcome_snd (env : Env) (email : String) (rs : List MxRecord) :
    (probeOutcome env email rs).2 = true := by
  unfold probeOutcome
  split
  · rfl
  · split <;> rfl

/-- C1, counterexample: for the known hard domain gmail.com, an address that
passes the format check and MX resolution with the skip flag false and whose
probe outcome is invalid is mapped to status unknown with a replacement
reason, not to status invalid carrying the probe reason through. -/
theorem probe_outcome_mapping_counterexample :
    verifyEmail envA "user@gmail.com" (.bool false)
      = { status := .unknown, reason := hardProbeFailReason (some "gmail.com") }
    ∧ (envA.probe "gmail-smtp-in.l.google.com" "test@example.com" "user@gmail.com").valid = false
    ∧ verifyEmail envA "user@gmail.com" (.bool false)
      ≠ { status := .invalid,
          reason := (envA.probe "gmail-smtp-in.l.google.com" "test@example.com" "user@gmail.com").reason } :=
  ⟨rfl, rfl, by decide⟩

/-- C1 (amended): for an address that passes the format check and MX
resolution with the skip flag not strictly true, a valid probe outcome maps
to status valid with the probe reason unchanged; an invalid probe outcome
maps to status invalid with the probe reason unchanged when the domain is
not in the known hard domain list, and to status unknown with a replacement
reason when it is. -/
theorem probe_outcome_mapping (env : Env) (email : String) (skip : JsValue)
    (rs : List MxRecord) (h0 : email ≠ "") (h1 : env.validateEmail email = true)
    (h2 : env.resolveMx (emailDomain email) = .ok rs) (h3 : rs ≠ [])
    (h4 : jsIsTrue skip = false) :
    ((env.probe (firstExchange (sortMx rs)) "test@example.com" email).valid = true →
      verifyEmail env email skip
        = { status := .valid,
            reason := (env.probe (firstExchange (sortMx rs)) "test@example.com" email).reason })
    ∧ ((env.probe (firstExchange (sortMx rs)) "test@example.com" email).valid = false →
        domainIsHard (emailDomain email) = false →
      verifyEmail env email skip
        = { status := .invalid,
            reason := (env.probe (firstExchange (sortMx rs)) "test@example.com" email).reason })
    ∧ ((env.probe (firstExchange (sortMx rs)) "test@example.com" email).valid = false →
        domainIsHard (emailDomain email) = true →
      verifyEmail env email skip
        = { status := .unknown, reason := hardProbeFailReason (emailDomain email) }) := by
  have hred := verifyEmailCore_probe_stage env email skip rs h0 h1 h2 h3
  have hne : ¬ (jsIsTrue skip = true) := by simp [h4]
  refine ⟨fun hp => ?_, fun hp hd => ?_, fun hp hd => ?_⟩
  · unfold verifyEmail
    rw [hred, if_neg hne]
    unfold probeOutcome
    rw [if_pos hp]
  · unfold verifyEmail
    rw [hred, if_neg hne]
    unfold probeOutcome
    rw [if_neg (by simp [hp]), if_neg (by simp [hd])]
  · unfold verifyEmail
    rw [hred, if_neg hne]
    unfold probeOutcome
    rw [if_neg (by simp [hp]), if_pos hd]

/-- C1 witness: the invalid probe outcome carried through on an ordinary
domain. -/
theorem probe_outcome_mapping_witness :
    verifyEmail envA "user@example.org" (.bool false)
      = { status := .invalid,
          reason := (envA.probe (firstExchange (sortMx [{ exchange := "mx1.example.org", priority := 10 }]))
                        "test@example.com" "user@example.org").reason } :=
  (probe_outcome_mapping envA "user@example.org" (.bool false)
      [{ exchange := "mx1.example.org", priority := 10 }]
      (by decide) rfl rfl (by decide) rfl).2.1 rfl rfl

/-- C3: for an address that passes the format check and resolves to at least
one MX record, the pipeline with the skip flag strictly true returns status
unknown (so never valid and never invalid), and the reason is one of the two
texts stating that mailbox verification was not performed. -/
theorem skip_flag_unknown (env : Env) (email : String) (rs : List MxRecord)
    (h0 : email ≠ "") (h1 : env.validateEmail email = true)
    (h2 : env.resolveMx (emailDomain email) = .ok rs) (h3 : rs ≠ []) :
    (verifyEmail env email (.bool true)).status = .unknown
    ∧ ((verifyEmail env email (.bool true)).reason = hardSkipReason (emailDomain email)
       ∨ (verifyEmail env email (.bool true)).reason = softSkipReason) := by
  have hred := verifyEmailCore_probe_stage env email (.bool true) rs h0 h1 h2 h3
  unfold verifyEmail
  rw [hred, if_pos (show jsIsTrue (JsValue.bool true) = true from rfl)]
  unfold skipOutcome
  by_cases hd : domainIsHard (emailDomain email) = true
  · rw [if_pos hd]
    exact ⟨rfl, Or.inl rfl⟩
  · rw [if_neg hd]
    exact ⟨rfl, Or.inr rfl⟩

/-- C3 witness: the skip path evaluated on a concrete resolvable address. -/
theorem skip_flag_unknown_witness :
    (verifyEmail envA "user@example.org" (.bool true)).status = .unknown
    ∧ ((verifyEmail envA "user@example.org" (.bool true)).reason
          = hardSkipReason (emailDomain "user@example.org")
       ∨ (verifyEmail envA "user@example.org" (.bool true)).reason = softSkipReason) :=
  skip_flag_unknown envA "user@example.org" [{ exchange := "mx1.example.org", priority := 10 }]
    (by decide) rfl rfl (by decide)

/-- C9: for an address that passes the format check and MX resolution, the
probe stage runs exactly when the skip value is not the strict boolean true;
any other value, such as the string true or the number one, still reaches
the probe. -/
theorem probe_gate_strict_true (env : Env) (email : String) (skip : JsValue)
    (rs : List MxRecord) (h0 : email ≠ "") (h1 : env.validateEmail email = true)
    (h2 : env.resolveMx (emailDomain email) = .ok rs) (h3 : rs ≠ []) :
    (verifyEmailCore env email skip).2 = true ↔ skip ≠ JsValue.bool true := by
  have hred := verifyEmailCore_probe_stage env email skip rs h0 h1 h2 h3
  rw [hred]
  by_cases hsk : jsIsTrue skip = true
  · have hskip : skip = JsValue.bool true := by
      cases skip with
      | bool b =>
        cases b with
        | true => rfl
        | false => simp [jsIsTrue] at hsk
      | str s => simp [jsIsTrue] at hsk
      | num n => simp [jsIsTrue] at hsk
      | null => simp [jsIsTrue] at hsk
      | undef => simp [jsIsTrue] at hsk
    rw [if_pos hsk, skipOutcome_snd]
    simp [hskip]
  · have hskip : skip ≠ JsValue.bool true := by
      intro he
      rw [he] at hsk
      exact hsk rfl
    rw [if_neg hsk, probeOutcome_snd]
    simp [hskip]

/-- C9 witness: the probe stage is reached for the truthy non-boolean skip
values, the string true and the number one. -/
theorem probe_gate_strict_true_witness :
    ((verifyEmailCore envA "user@example.org" (.str "true")).2 = true
        ↔ JsValue.str "true" ≠ JsValue.bool true)
    ∧ ((verifyEmailCore envA "user@example.org" (.num 1)).2 = true
        ↔ JsValue.num 1 ≠ JsValue.bool true) :=
  ⟨probe_gate_strict_true envA "user@example.org" (.str "true")
      [{ exchange := "mx1.example.org", priority := 10 }] (by decide) rfl rfl (by decide),
   probe_gate_strict_true envA "user@example.org" (.num 1)
      [{ exchange := "mx1.example.org", priority := 10 }] (by decide) rfl rfl (by decide)⟩

/-- The loop of the batch handler appends one entry per address in order and
its three counters together grow by exactly the number of addresses. -/
theorem batchLoop_spec (env : Env) (skip : JsValue) :
    ∀ (emails : List String) (results : List BatchEntry) (v i u : Nat),
    (batchLoop env skip emails results v i u).1 = results ++ emails.map (entryFor env skip)
    ∧ (batchLoop env skip emails results v i u).2.1
        + (batchLoop env skip emails results v i u).2.2.1
        + (batchLoop env skip emails results v i u).2.2.2
      = v + i + u + emails.length := by
  intro emails
  induction emails with
  | nil =>
    intro results v i u
    simp [batchLoop]
  | cons e rest ih =>
    intro results v i u
    cases hs : (verifyEmail env e skip).status with
    | valid =>
      have h := ih (results ++ [entryFor env skip e]) (v + 1) i u
      simp only [batchLoop, hs]
      refine ⟨?_, ?_⟩
      · rw [h.1]
        simp [List.append_assoc]
      · rw [h.2]
        simp [List.length_cons]
        omega
    | invalid =>
      have h := ih (results ++ [entryFor env skip e]) v (i + 1) u
      simp only [batchLoop, hs]
      refine ⟨?_, ?_⟩
      · rw [h.1]
        simp [List.append_assoc]
      · rw [h.2]
        simp [List.length_cons]
        omega
    | unknown =>
      have h := ih (results ++ [entryFor env skip e]) v i (u + 1)
      simp only [batchLoop, hs]
      refine ⟨?_, ?_⟩
      · rw [h.1]
        simp [List.append_assoc]
      · rw [h.2]
        simp [List.length_cons]
        omega

/-- C4: on any accepted input list, including the empty one, the summary
satisfies total = valid + invalid + unknown and total equals the length of
the input list. -/
theorem batch_summary_invariant (env : Env) (skip : JsValue) (emails : List String)
    (resp : BatchResponse) (h : verifyBatch env (.list emails) skip = .ok resp) :
    resp.summary.total = resp.summary.valid + resp.summary.invalid + resp.summary.unknown
    ∧ resp.summary.total = emails.length := by
  simp only [verifyBatch] at h
  split at h
  · exact absurd h (by simp)
  · injection h with h
    subst h
    have hs := (batchLoop_spec env skip emails [] 0 0 0).2
    refine ⟨?_, rfl⟩
    simp only []
    omega

/-- C4 witness: the summary invariant on a concrete three-address batch. -/
theorem batch_summary_invariant_witness :
    respA.summary.total = respA.summary.valid + respA.summary.invalid + respA.summary.unknown
    ∧ respA.summary.total = (["user@example.org", "", "user@gmail.com"] : List String).length :=
  batch_summary_invariant envA (.bool true) ["user@example.org", "", "user@gmail.com"] respA rfl

/-- C5: on any accepted input list the results are exactly the input
addresses in input order, each paired with its own pipeline outcome, so
every address yields exactly one entry and no failure aborts the rest. -/
theorem batch_results_order (env : Env) (skip : JsValue) (emails : List String)
    (resp : BatchResponse) (h : verifyBatch env (.list emails) skip = .ok resp) :
    resp.results = emails.map (entryFor env skip)
    ∧ resp.results.length = emails.length := by
  simp only [verifyBatch] at h
  split at h
  · exact absurd h (by simp)
  · injection h with h
    subst h
    have hs := (batchLoop_spec env skip emails [] 0 0 0).1
    constructor
    · simpa using hs
    · simp only []
      rw [hs]
      simp

/-- C5 witness: the results order on a concrete three-address batch. -/
theorem batch_results_order_witness :
    respA.results = (["user@example.org", "", "user@gmail.com"]).map (entryFor envA (.bool true))
    ∧ respA.results.length = (["user@example.org", "", "user@gmail.com"] : List String).length :=
  batch_results_order envA (.bool true) ["user@example.org", "", "user@gmail.com"] respA rfl

/-- A data event received in the aborted sink state leaves the recorded
result, the writes and the step unchanged. -/
theorem onData_step99 (fe te : String) (st : ProbeState) (chunk : String) (st' : ProbeState)
    (h99 : st.step = 99) (h : onData fe te st chunk = some st') :
    st'.result = st.result ∧ st'.writes = st.writes ∧ st'.step = 99 := by
  unfold onData at h
  split at h
  · split at h
    · exact absurd h (by simp)
    · injection h with h
      subst h
      unfold stepTransition
      simp [h99]
  · injection h with h
    subst h
    exact ⟨rfl, rfl, h99⟩

/-- C10: once the probe is in the aborted sink (step 99), any sequence of
further data events leaves the recorded outcome and the written commands
unchanged and keeps the session in the sink, so the close of the connection
resolves with exactly the outcome recorded at the abort. -/
theorem aborted_state_invariant (fe te : String) :
    ∀ (chunks : List String) (st st' : ProbeState),
    st.step = 99 → processData fe te st chunks = some st' →
    st'.result = st.result ∧ st'.writes = st.writes ∧ st'.step = 99 := by
  intro chunks
  induction chunks with
  | nil =>
    intro st st' h99 h
    simp [processData] at h
    subst h
    exact ⟨rfl, rfl, h99⟩
  | cons c rest ih =>
    intro st st' h99 h
    simp only [processData, List.foldlM_cons] at h
    cases h1 : onData fe te st c with
    | none =>
      rw [h1] at h
      simp at h
    | some st1 =>
      rw [h1] at h
      simp only [Option.bind_eq_bind, Option.some_bind] at h
      obtain ⟨hr, hw, hs⟩ := onData_step99 fe te st c st1 h99 h1
      obtain ⟨hr2, hw2, hs2⟩ := ih st1 st' hs h
      exact ⟨hr2.trans hr, hw2.trans hw, hs2⟩

/-- C10 witness: the sink invariant evaluated on one further reply after an
abort at the greeting acknowledgement step. -/
theorem aborted_state_invariant_witness :
    sAfter.result = sAbort.result ∧ sAfter.writes = sAbort.writes ∧ sAfter.step = 99 :=
  aborted_state_invariant "test@example.com" "user@example.org" ["250 Ok\r\n"] sAbort sAfter rfl rfl

end EmailVerify
